import Mathlib

/-!
Shallow embedding of the paginated attendee collector of
`scrape_all_attendees_complete.py` (class `SwapCardScraper`), together with
proofs of the behavioural properties of its collection loop.

Modelling conventions:
* JSON objects become structures; a key that may be absent becomes an
  `Option` field (`none` = key missing).
* The mutable instance state of `SwapCardScraper` (`all_attendees`,
  `unique_ids`, `total_count`) becomes the explicit state record `LoopState`,
  extended with observability fields recording the side effects of a run:
  the checkpoints written, one `PageEvent` per successfully processed
  pagination page, and the number of pagination requests issued (`iters`).
* The network is an oracle `Upstream`: `first` is the response to the initial
  (cursor-less) request, `next p c` is the response to the pagination request
  for page `p` carrying cursor `c`.  A `none` response models either a raised
  exception or a non-200 status code, which the source treats identically
  (`return []` on the first page, `break` inside the loop).
* `time.sleep`, logging and the wall-clock timestamp written into checkpoint
  files are not modelled (no observable effect on the collected data).
-/

/-- One attendee record exactly as built in `extract_attendees`
    (a dict with the eight listed keys, absent source fields defaulted to ""). -/
structure Attendee where
  id : String
  firstName : String
  lastName : String
  jobTitle : String
  organization : String
  photoUrl : String
  biography : String
  userId : String
deriving DecidableEq, Repr

/-- One raw person object from `data.view.people.nodes`.
    `none` models a missing key (`person.get(key, default)`). -/
structure Person where
  id : Option String := none
  firstName : Option String := none
  lastName : Option String := none
  jobTitle : Option String := none
  organization : Option String := none
  photoUrl : Option String := none
  biography : Option String := none
  userId : Option String := none
deriving DecidableEq, Repr

/-- The `pageInfo` object: `hasNextPage` defaults to `False`
    (`page_info.get('hasNextPage', False)`), `endCursor` to `None`. -/
structure PageInfo where
  hasNextPage : Bool := false
  endCursor : Option String := none
deriving DecidableEq, Repr

/-- The `data.view.people` object. -/
structure PeopleData where
  totalCount : Option Nat := none
  nodes : Option (List Person) := none
  pageInfo : Option PageInfo := none
deriving DecidableEq, Repr

/-- One element of the JSON array returned by the batched GraphQL POST.
    `people = none` models any result in which the `data.view.people` path is
    absent (or the `people` dict is falsy), which `extract_attendees` skips. -/
structure ApiResult where
  people : Option PeopleData := none
deriving DecidableEq, Repr

/-- The attendee dict built for one person (`person.get(field, '')`);
    the id string was already defaulted by the caller. -/
def mk_attendee (pid : String) (p : Person) : Attendee :=
  { id := pid
    firstName := p.firstName.getD ""
    lastName := p.lastName.getD ""
    jobTitle := p.jobTitle.getD ""
    organization := p.organization.getD ""
    photoUrl := p.photoUrl.getD ""
    biography := p.biography.getD ""
    userId := p.userId.getD "" }

/-- The inner `for person in people_data['nodes']` loop of `extract_attendees`:
    `person_id = person.get('id', '')`; a person whose id is already in
    `self.unique_ids` is skipped, otherwise the id is added to the set and the
    attendee dict appended. Returns the grown attendee list and seen set. -/
def process_nodes : List Person → Finset String → List Attendee → List Attendee × Finset String
  | [], seen, acc => (acc, seen)
  | p :: rest, seen, acc =>
    let pid := p.id.getD ""
    if pid ∈ seen then
      process_nodes rest seen acc
    else
      process_nodes rest (insert pid seen) (acc ++ [mk_attendee pid p])

/-- The running value of `(attendees, next_cursor, has_more, total_count)`
    inside `extract_attendees`, plus the mutated `self.unique_ids`. -/
structure ExtractResult where
  attendees : List Attendee
  next_cursor : Option String
  has_more : Bool
  total_count : Option Nat
  seen : Finset String
deriving DecidableEq

/-- One iteration of the `for result in response_data` loop of
    `extract_attendees`: record `totalCount` only if none was seen yet,
    process the nodes, then overwrite `has_more` from `pageInfo` and (only
    when `has_more` is true) `next_cursor` from `endCursor`. -/
def extract_step (acc : ExtractResult) (r : ApiResult) : ExtractResult :=
  match r.people with
  | none => acc
  | some pd =>
    let tc : Option Nat :=
      match pd.totalCount, acc.total_count with
      | some t, none => some t
      | _, _ => acc.total_count
    let ps : List Attendee × Finset String :=
      match pd.nodes with
      | none => (acc.attendees, acc.seen)
      | some ns => process_nodes ns acc.seen acc.attendees
    match pd.pageInfo with
    | none =>
      { attendees := ps.1, seen := ps.2, total_count := tc
        next_cursor := acc.next_cursor, has_more := acc.has_more }
    | some pinfo =>
      if pinfo.hasNextPage then
        { attendees := ps.1, seen := ps.2, total_count := tc
          next_cursor := pinfo.endCursor, has_more := true }
      else
        { attendees := ps.1, seen := ps.2, total_count := tc
          next_cursor := acc.next_cursor, has_more := false }

/-- `SwapCardScraper.extract_attendees`: fold over the response array starting
    from `attendees = []`, `next_cursor = None`, `has_more = False`,
    `total_count = None` and the current `self.unique_ids`. -/
def extract_attendees (rd : List ApiResult) (seen : Finset String) : ExtractResult :=
  rd.foldl extract_step
    { attendees := [], next_cursor := none, has_more := false
      total_count := none, seen := seen }

/-- The JSON body written by `save_checkpoint`: keys `attendees`,
    `unique_count` and `total_expected` (the `timestamp` key holds wall-clock
    time and is not modelled).  The page number appears only in the filename
    `checkpoint_{page_num}.json`, which is modelled as the `Nat` paired with
    each written `Checkpoint` in `LoopState.checkpoints`. -/
structure Checkpoint where
  attendees : List Attendee
  unique_count : Nat
  total_expected : Option Nat
deriving DecidableEq, Repr

/-- One successfully processed pagination page (observability record):
    the page number, the cursor string sent with its request, the number of
    new (non-duplicate) records it contributed, and the `next_cursor` /
    `has_more` pair its response carried. -/
structure PageEvent where
  page : Nat
  sentCursor : String
  newCount : Nat
  respCursor : Option String
  respHasMore : Bool
deriving DecidableEq, Repr

/-- The collector state: the three mutable fields of `SwapCardScraper`
    relevant to a run, plus the observability logs described in the header. -/
structure LoopState where
  all_attendees : List Attendee := []
  unique_ids : Finset String := ∅
  total_count : Option Nat := none
  checkpoints : List (Nat × Checkpoint) := []
  pages : List PageEvent := []
  iters : Nat := 0
deriving DecidableEq

/-- `SwapCardScraper.save_checkpoint` (content of the JSON document). -/
def save_checkpoint (st : LoopState) : Checkpoint :=
  { attendees := st.all_attendees
    unique_count := st.unique_ids.card
    total_expected := st.total_count }

/-- Python truthiness of the `cursor` variable in `while cursor and has_more`:
    `None` and the empty string are falsy. -/
def cursorOk : Option String → Bool
  | none => false
  | some s => !(s == "")

/-- The guard `if self.total_count and len(self.unique_ids) >= self.total_count`:
    an unset or zero total is falsy, so the target check never fires then. -/
def reached_total (st : LoopState) : Bool :=
  match st.total_count with
  | none => false
  | some t => decide (0 < t) && decide (t ≤ st.unique_ids.card)

/-- `if total_count: self.total_count = total_count` on the first page
    (`self.total_count` starts as `None`): a totalCount of 0 is falsy and is
    not stored. -/
def store_total : Option Nat → Option Nat
  | none => none
  | some t => if 0 < t then some t else none

/-- `self.max_pages_safety = 200`. -/
def max_pages_safety : Nat := 200

/-- The network oracle.  `first` answers the initial cursor-less batched
    query; `next p c` answers the pagination query for page `p` built with
    cursor `c` (`build_pagination_query`).  `none` = exception or non-200. -/
structure Upstream where
  first : Option (List ApiResult)
  next : Nat → String → Option (List ApiResult)

/-- The page-event logged for a successfully fetched page. -/
def page_event (pageNum : Nat) (c : String) (e : ExtractResult) : PageEvent :=
  { page := pageNum, sentCursor := c, newCount := e.attendees.length
    respCursor := e.next_cursor, respHasMore := e.has_more }

/-- State change common to every successfully fetched pagination page:
    the request is counted, `self.unique_ids` has been mutated by
    `extract_attendees`, and the page is logged. -/
def absorb_page (pageNum : Nat) (c : String) (e : ExtractResult) (st : LoopState) :
    LoopState :=
  { st with iters := st.iters + 1, unique_ids := e.seen
            pages := st.pages ++ [page_event pageNum c e] }

/-- The `if attendees:` branch of the loop body: extend `self.all_attendees`
    with the new records, then `if page_num % save_interval == 0:` write the
    checkpoint `checkpoint_{page_num}.json`. -/
def extend_state (si pageNum : Nat) (e : ExtractResult) (st1 : LoopState) : LoopState :=
  let st2 : LoopState := { st1 with all_attendees := st1.all_attendees ++ e.attendees }
  if pageNum % si = 0 then
    { st2 with checkpoints := st2.checkpoints ++ [(pageNum, save_checkpoint st2)] }
  else st2

/-- One iteration of `while cursor and has_more and page_num <= max_pages_safety`
    (the guard included): `Sum.inl s` means the loop stops with state `s`
    (guard false, request failure, three consecutive empty pages, or expected
    total reached); `Sum.inr (cursor, has_more, consecutive_empty, s)` means
    the loop continues with those loop variables at `page_num + 1`.  The
    cursor is advanced to the response's `next_cursor` only in the
    `if attendees:` branch (the source keeps the old cursor on empty pages). -/
def scrape_step (u : Upstream) (si pageNum : Nat) (cursor : Option String)
    (hasMore : Bool) (ce : Nat) (st : LoopState) :
    LoopState ⊕ (Option String × Bool × Nat × LoopState) :=
  if cursorOk cursor && hasMore then
    match u.next pageNum (cursor.getD "") with
    | none => Sum.inl { st with iters := st.iters + 1 }
    | some rd =>
      let e := extract_attendees rd st.unique_ids
      let st1 := absorb_page pageNum (cursor.getD "") e st
      if e.attendees.isEmpty then
        if 3 ≤ ce + 1 then Sum.inl st1
        else if reached_total st1 then Sum.inl st1
        else Sum.inr (cursor, e.has_more, ce + 1, st1)
      else
        let st3 := extend_state si pageNum e st1
        if reached_total st3 then Sum.inl st3
        else Sum.inr (e.next_cursor, e.has_more, 0, st3)
  else Sum.inl st

/-- The pagination loop of `scrape_all_attendees`.  `fuel` is the number of
    admissible page numbers left (`max_pages_safety + 1 - page_num`), so
    `fuel = 0` is exactly the guard `page_num > max_pages_safety`. -/
def scrape_loop (u : Upstream) (si : Nat) :
    Nat → Nat → Option String → Bool → Nat → LoopState → LoopState
  | 0, _, _, _, _, st => st
  | fuel + 1, pageNum, cursor, hasMore, ce, st =>
    match scrape_step u si pageNum cursor hasMore ce st with
    | Sum.inl stop => stop
    | Sum.inr (cursor', hasMore', ce', st') =>
      scrape_loop u si fuel (pageNum + 1) cursor' hasMore' ce' st'

/-- `SwapCardScraper.scrape_all_attendees(save_interval)`.  On a failed first
    request the source returns `[]` (state untouched); otherwise it extracts
    the first page, stores a truthy total count, extends `all_attendees`, and
    enters the pagination loop at `page_num = 2`. -/
def scrape_all_attendees (u : Upstream) (si : Nat) : LoopState :=
  match u.first with
  | none => {}
  | some rd =>
    let e := extract_attendees rd ∅
    let st : LoopState :=
      { all_attendees := e.attendees, unique_ids := e.seen
        total_count := store_total e.total_count }
    scrape_loop u si (max_pages_safety - 1) 2 e.next_cursor e.has_more 0 st

/-! ## Basic equations for the loop step -/

@[simp] lemma absorb_page_all_attendees (pageNum : Nat) (c : String) (e : ExtractResult)
    (st : LoopState) : (absorb_page pageNum c e st).all_attendees = st.all_attendees := rfl

@[simp] lemma absorb_page_unique_ids (pageNum : Nat) (c : String) (e : ExtractResult)
    (st : LoopState) : (absorb_page pageNum c e st).unique_ids = e.seen := rfl

@[simp] lemma absorb_page_total_count (pageNum : Nat) (c : String) (e : ExtractResult)
    (st : LoopState) : (absorb_page pageNum c e st).total_count = st.total_count := rfl

@[simp] lemma absorb_page_checkpoints (pageNum : Nat) (c : String) (e : ExtractResult)
    (st : LoopState) : (absorb_page pageNum c e st).checkpoints = st.checkpoints := rfl

@[simp] lemma absorb_page_pages (pageNum : Nat) (c : String) (e : ExtractResult)
    (st : LoopState) :
    (absorb_page pageNum c e st).pages = st.pages ++ [page_event pageNum c e] := rfl

@[simp] lemma absorb_page_iters (pageNum : Nat) (c : String) (e : ExtractResult)
    (st : LoopState) : (absorb_page pageNum c e st).iters = st.iters + 1 := rfl

@[simp] lemma extend_state_all_attendees (si pageNum : Nat) (e : ExtractResult)
    (st1 : LoopState) :
    (extend_state si pageNum e st1).all_attendees = st1.all_attendees ++ e.attendees := by
  unfold extend_state; split <;> rfl

@[simp] lemma extend_state_unique_ids (si pageNum : Nat) (e : ExtractResult)
    (st1 : LoopState) : (extend_state si pageNum e st1).unique_ids = st1.unique_ids := by
  unfold extend_state; split <;> rfl

@[simp] lemma extend_state_total_count (si pageNum : Nat) (e : ExtractResult)
    (st1 : LoopState) : (extend_state si pageNum e st1).total_count = st1.total_count := by
  unfold extend_state; split <;> rfl

@[simp] lemma extend_state_pages (si pageNum : Nat) (e : ExtractResult)
    (st1 : LoopState) : (extend_state si pageNum e st1).pages = st1.pages := by
  unfold extend_state; split <;> rfl

@[simp] lemma extend_state_iters (si pageNum : Nat) (e : ExtractResult)
    (st1 : LoopState) : (extend_state si pageNum e st1).iters = st1.iters := by
  unfold extend_state; split <;> rfl

lemma extend_state_checkpoints (si pageNum : Nat) (e : ExtractResult) (st1 : LoopState) :
    (extend_state si pageNum e st1).checkpoints =
      if pageNum % si = 0 then
        st1.checkpoints ++
          [(pageNum,
            { attendees := st1.all_attendees ++ e.attendees
              unique_count := st1.unique_ids.card
              total_expected := st1.total_count })]
      else st1.checkpoints := by
  unfold extend_state save_checkpoint; split <;> rfl

lemma scrape_step_guard_false {u : Upstream} {si pageNum : Nat} {cursor : Option String}
    {hasMore : Bool} {ce : Nat} {st : LoopState}
    (h : (cursorOk cursor && hasMore) = false) :
    scrape_step u si pageNum cursor hasMore ce st = Sum.inl st := by
  unfold scrape_step; rw [h]; rfl

lemma scrape_step_err {u : Upstream} {si pageNum : Nat} {cursor : Option String}
    {hasMore : Bool} {ce : Nat} {st : LoopState}
    (hg : (cursorOk cursor && hasMore) = true)
    (hf : u.next pageNum (cursor.getD "") = none) :
    scrape_step u si pageNum cursor hasMore ce st =
      Sum.inl { st with iters := st.iters + 1 } := by
  unfold scrape_step; rw [if_pos hg, hf]

lemma scrape_step_some {u : Upstream} {si pageNum : Nat} {cursor : Option String}
    {hasMore : Bool} {ce : Nat} {st : LoopState} {rd : List ApiResult}
    (hg : (cursorOk cursor && hasMore) = true)
    (hf : u.next pageNum (cursor.getD "") = some rd) :
    scrape_step u si pageNum cursor hasMore ce st =
      (if (extract_attendees rd st.unique_ids).attendees.isEmpty then
        (if 3 ≤ ce + 1 then
          Sum.inl (absorb_page pageNum (cursor.getD "") (extract_attendees rd st.unique_ids) st)
        else if reached_total
            (absorb_page pageNum (cursor.getD "") (extract_attendees rd st.unique_ids) st) then
          Sum.inl (absorb_page pageNum (cursor.getD "") (extract_attendees rd st.unique_ids) st)
        else
          Sum.inr (cursor, (extract_attendees rd st.unique_ids).has_more, ce + 1,
            absorb_page pageNum (cursor.getD "") (extract_attendees rd st.unique_ids) st))
      else
        (if reached_total
            (extend_state si pageNum (extract_attendees rd st.unique_ids)
              (absorb_page pageNum (cursor.getD "") (extract_attendees rd st.unique_ids) st)) then
          Sum.inl (extend_state si pageNum (extract_attendees rd st.unique_ids)
            (absorb_page pageNum (cursor.getD "") (extract_attendees rd st.unique_ids) st))
        else
          Sum.inr ((extract_attendees rd st.unique_ids).next_cursor,
            (extract_attendees rd st.unique_ids).has_more, 0,
            extend_state si pageNum (extract_attendees rd st.unique_ids)
              (absorb_page pageNum (cursor.getD "") (extract_attendees rd st.unique_ids) st)))) := by
  unfold scrape_step; rw [if_pos hg, hf]

/-- Exhaustive characterization of one loop iteration: guard false, request
    failure, an empty page (stop or continue with the OLD cursor), or a page
    with new records (stop or continue with the response's cursor). -/
lemma scrape_step_cases (u : Upstream) (si pageNum : Nat) (cursor : Option String)
    (hasMore : Bool) (ce : Nat) (st : LoopState) :
    (scrape_step u si pageNum cursor hasMore ce st = Sum.inl st ∧
      (cursorOk cursor && hasMore) = false) ∨
    (scrape_step u si pageNum cursor hasMore ce st = Sum.inl { st with iters := st.iters + 1 } ∧
      u.next pageNum (cursor.getD "") = none) ∨
    (∃ rd, u.next pageNum (cursor.getD "") = some rd ∧ (cursorOk cursor && hasMore) = true ∧
      (((extract_attendees rd st.unique_ids).attendees = [] ∧
        (scrape_step u si pageNum cursor hasMore ce st =
            Sum.inl (absorb_page pageNum (cursor.getD "") (extract_attendees rd st.unique_ids) st) ∨
          scrape_step u si pageNum cursor hasMore ce st =
            Sum.inr (cursor, (extract_attendees rd st.unique_ids).has_more, ce + 1,
              absorb_page pageNum (cursor.getD "") (extract_attendees rd st.unique_ids) st))) ∨
       ((extract_attendees rd st.unique_ids).attendees ≠ [] ∧
        (scrape_step u si pageNum cursor hasMore ce st =
            Sum.inl (extend_state si pageNum (extract_attendees rd st.unique_ids)
              (absorb_page pageNum (cursor.getD "") (extract_attendees rd st.unique_ids) st)) ∨
          scrape_step u si pageNum cursor hasMore ce st =
            Sum.inr ((extract_attendees rd st.unique_ids).next_cursor,
              (extract_attendees rd st.unique_ids).has_more, 0,
              extend_state si pageNum (extract_attendees rd st.unique_ids)
                (absorb_page pageNum (cursor.getD "") (extract_attendees rd st.unique_ids) st)))))) := by
  cases hg : (cursorOk cursor && hasMore) with
  | false => exact Or.inl ⟨scrape_step_guard_false hg, rfl⟩
  | true =>
    cases hf : u.next pageNum (cursor.getD "") with
    | none => exact Or.inr (Or.inl ⟨scrape_step_err hg hf, rfl⟩)
    | some rd =>
      refine Or.inr (Or.inr ⟨rd, rfl, rfl, ?_⟩)
      rw [scrape_step_some hg hf]
      by_cases hemp : (extract_attendees rd st.unique_ids).attendees.isEmpty = true
      · have hnil : (extract_attendees rd st.unique_ids).attendees = [] :=
          List.isEmpty_iff.mp hemp
        refine Or.inl ⟨hnil, ?_⟩
        rw [if_pos hemp]
        by_cases h3 : 3 ≤ ce + 1
        · rw [if_pos h3]; exact Or.inl rfl
        · rw [if_neg h3]
          by_cases htr : reached_total
              (absorb_page pageNum (cursor.getD "") (extract_attendees rd st.unique_ids) st) = true
          · rw [if_pos htr]; exact Or.inl rfl
          · rw [if_neg htr]; exact Or.inr rfl
      · have hne : (extract_attendees rd st.unique_ids).attendees ≠ [] := by
          intro hx; exact hemp (by simp [hx])
        refine Or.inr ⟨hne, ?_⟩
        rw [if_neg hemp]
        by_cases htr : reached_total
            (extend_state si pageNum (extract_attendees rd st.unique_ids)
              (absorb_page pageNum (cursor.getD "") (extract_attendees rd st.unique_ids) st)) = true
        · rw [if_pos htr]; exact Or.inl rfl
        · rw [if_neg htr]; exact Or.inr rfl

lemma scrape_loop_zero (u : Upstream) (si pageNum : Nat) (cursor : Option String)
    (hasMore : Bool) (ce : Nat) (st : LoopState) :
    scrape_loop u si 0 pageNum cursor hasMore ce st = st := rfl

lemma scrape_loop_succ (u : Upstream) (si fuel pageNum : Nat) (cursor : Option String)
    (hasMore : Bool) (ce : Nat) (st : LoopState) :
    scrape_loop u si (fuel + 1) pageNum cursor hasMore ce st =
      match scrape_step u si pageNum cursor hasMore ce st with
      | Sum.inl stop => stop
      | Sum.inr (cursor', hasMore', ce', st') =>
        scrape_loop u si fuel (pageNum + 1) cursor' hasMore' ce' st' := rfl

lemma scrape_loop_succ_inl {u : Upstream} {si fuel pageNum : Nat} {cursor : Option String}
    {hasMore : Bool} {ce : Nat} {st s : LoopState}
    (h : scrape_step u si pageNum cursor hasMore ce st = Sum.inl s) :
    scrape_loop u si (fuel + 1) pageNum cursor hasMore ce st = s := by
  rw [scrape_loop_succ, h]

lemma scrape_loop_succ_inr {u : Upstream} {si fuel pageNum : Nat} {cursor : Option String}
    {hasMore : Bool} {ce : Nat} {st : LoopState} {cursor' : Option String}
    {hasMore' : Bool} {ce' : Nat} {st' : LoopState}
    (h : scrape_step u si pageNum cursor hasMore ce st = Sum.inr (cursor', hasMore', ce', st')) :
    scrape_loop u si (fuel + 1) pageNum cursor hasMore ce st =
      scrape_loop u si fuel (pageNum + 1) cursor' hasMore' ce' st' := by
  rw [scrape_loop_succ, h]

/-! ## Deduplication invariant -/

/-- The dedup invariant tying the accumulated record list to the seen-id set:
    equal sizes, pairwise distinct ids, and every listed id is in the set. -/
def dedup_inv (l : List Attendee) (s : Finset String) : Prop :=
  l.length = s.card ∧ (l.map (fun a => a.id)).Nodup ∧ ∀ a ∈ l, a.id ∈ s

lemma process_nodes_dedup (ns : List Person) :
    ∀ (seen : Finset String) (acc A : List Attendee),
      dedup_inv (A ++ acc) seen →
      dedup_inv (A ++ (process_nodes ns seen acc).1) (process_nodes ns seen acc).2 := by
  induction ns with
  | nil => intro seen acc A h; simpa [process_nodes] using h
  | cons p rest ih =>
    intro seen acc A h
    by_cases hp : p.id.getD "" ∈ seen
    · simp only [process_nodes, hp, if_true]
      exact ih seen acc A h
    · simp only [process_nodes, hp, if_false]
      refine ih (insert (p.id.getD "") seen) (acc ++ [mk_attendee (p.id.getD "") p]) A ?_
      obtain ⟨h1, h2, h3⟩ := h
      refine ⟨?_, ?_, ?_⟩
      · rw [← List.append_assoc]
        simp only [List.length_append, List.length_singleton,
          Finset.card_insert_of_not_mem hp]
        simp only [List.length_append] at h1
        omega
      · rw [← List.append_assoc, List.map_append]
        refine List.Nodup.append h2 (List.nodup_singleton _) ?_
        intro x hx hx'
        simp only [List.map_singleton, List.mem_singleton, mk_attendee] at hx'
        subst hx'
        obtain ⟨a, ha, ha'⟩ := List.mem_map.mp hx
        exact hp (ha' ▸ h3 a ha)
      · intro a ha
        rw [← List.append_assoc] at ha
        rcases List.mem_append.mp ha with ha | ha
        · exact Finset.mem_insert_of_mem (h3 a ha)
        · simp only [List.mem_singleton] at ha
          subst ha
          exact Finset.mem_insert_self _ _

lemma extract_step_dedup (r : ApiResult) (acc : ExtractResult) (A : List Attendee)
    (h : dedup_inv (A ++ acc.attendees) acc.seen) :
    dedup_inv (A ++ (extract_step acc r).attendees) (extract_step acc r).seen := by
  obtain ⟨people⟩ := r
  cases people with
  | none => exact h
  | some pd =>
    obtain ⟨ptc, pn, ppi⟩ := pd
    cases pn with
    | none =>
      cases ppi with
      | none => exact h
      | some pinfo =>
        obtain ⟨hnp, pec⟩ := pinfo
        cases hnp <;> exact h
    | some ns =>
      have hmain := process_nodes_dedup ns acc.seen acc.attendees A h
      cases ppi with
      | none => exact hmain
      | some pinfo =>
        obtain ⟨hnp, pec⟩ := pinfo
        cases hnp <;> exact hmain

lemma extract_fold_dedup :
    ∀ (rs : List ApiResult) (acc : ExtractResult) (A : List Attendee),
      dedup_inv (A ++ acc.attendees) acc.seen →
      dedup_inv (A ++ (rs.foldl extract_step acc).attendees)
        (rs.foldl extract_step acc).seen := by
  intro rs
  induction rs with
  | nil => intro acc A h; exact h
  | cons r rest ih =>
    intro acc A h
    exact ih (extract_step acc r) A (extract_step_dedup r acc A h)

lemma extract_attendees_dedup (rd : List ApiResult) (seen : Finset String)
    (A : List Attendee) (h : dedup_inv A seen) :
    dedup_inv (A ++ (extract_attendees rd seen).attendees)
      (extract_attendees rd seen).seen := by
  unfold extract_attendees
  exact extract_fold_dedup rd _ A (by simpa using h)

lemma scrape_loop_dedup (u : Upstream) (si : Nat) :
    ∀ (fuel pageNum : Nat) (cursor : Option String) (hasMore : Bool) (ce : Nat)
      (st : LoopState),
      dedup_inv st.all_attendees st.unique_ids →
      dedup_inv (scrape_loop u si fuel pageNum cursor hasMore ce st).all_attendees
        (scrape_loop u si fuel pageNum cursor hasMore ce st).unique_ids := by
  intro fuel
  induction fuel with
  | zero => intro pageNum cursor hasMore ce st h; exact h
  | succ fuel ih =>
    intro pageNum cursor hasMore ce st h
    rw [scrape_loop_succ]
    rcases scrape_step_cases u si pageNum cursor hasMore ce st with
      ⟨hs, -⟩ | ⟨hs, -⟩ | ⟨rd, -, -, ⟨hnil, hs | hs⟩ | ⟨hne, hs | hs⟩⟩ <;> rw [hs]
    · exact h
    · exact h
    · have he := extract_attendees_dedup rd st.unique_ids st.all_attendees h
      simpa [dedup_inv, hnil] using he
    · have he := extract_attendees_dedup rd st.unique_ids st.all_attendees h
      exact ih _ _ _ _ _ (by simpa [dedup_inv, hnil] using he)
    · have he := extract_attendees_dedup rd st.unique_ids st.all_attendees h
      simpa [dedup_inv] using he
    · have he := extract_attendees_dedup rd st.unique_ids st.all_attendees h
      exact ih _ _ _ _ _ (by simpa [dedup_inv] using he)

lemma scrape_all_dedup (u : Upstream) (si : Nat) :
    dedup_inv (scrape_all_attendees u si).all_attendees
      (scrape_all_attendees u si).unique_ids := by
  unfold scrape_all_attendees
  cases u.first with
  | none => exact ⟨by simp, List.nodup_nil, by simp⟩
  | some rd =>
    have h0 : dedup_inv ([] : List Attendee) (∅ : Finset String) :=
      ⟨by simp, List.nodup_nil, by simp⟩
    have he := extract_attendees_dedup rd ∅ [] h0
    exact scrape_loop_dedup u si _ 2 _ _ 0 _ (by simpa [dedup_inv] using he)

/-! ## Concrete fixtures used by witnesses and counterexamples -/

/-- A person carrying only an id. -/
def person_of (i : String) : Person := { id := some i }

/-- A one-result response carrying the given totalCount, nodes and pageInfo. -/
def page_of (tc : Option Nat) (ps : List Person) (hm : Bool) (cur : Option String) :
    List ApiResult :=
  [{ people := some { totalCount := tc, nodes := some ps
                      pageInfo := some { hasNextPage := hm, endCursor := cur } } }]

/-! ## C1: deduplication invariant -/

/-- C1: for every sequence of page responses fed to the collection loop, the
    final record list of `scrape_all_attendees` contains no two entries with
    equal `id` and its length equals the size of the seen-id set; moreover the
    loop preserves this invariant from any state, so it holds after every
    page. -/
theorem dedup_invariant :
    (∀ (u : Upstream) (si : Nat),
        ((scrape_all_attendees u si).all_attendees.map (fun a => a.id)).Nodup ∧
        (scrape_all_attendees u si).all_attendees.length =
          (scrape_all_attendees u si).unique_ids.card) ∧
    (∀ (u : Upstream) (si fuel pageNum : Nat) (cursor : Option String) (hasMore : Bool)
        (ce : Nat) (st : LoopState),
        dedup_inv st.all_attendees st.unique_ids →
        dedup_inv (scrape_loop u si fuel pageNum cursor hasMore ce st).all_attendees
          (scrape_loop u si fuel pageNum cursor hasMore ce st).unique_ids) := by
  constructor
  · intro u si
    obtain ⟨h1, h2, h3⟩ := scrape_all_dedup u si
    exact ⟨h2, h1⟩
  · intro u si fuel pageNum cursor hasMore ce st h
    exact scrape_loop_dedup u si fuel pageNum cursor hasMore ce st h

/-- Upstream fixture for the C1 witness: one pagination page with one record. -/
def u_c1 : Upstream :=
  { first := none
    next := fun k _ => if k = 2 then some (page_of none [person_of "W1"] false none) else none }

/-- Witness for C1: the loop-invariant half applied at a concrete state. -/
theorem dedup_invariant_witness :
    dedup_inv (scrape_loop u_c1 10 1 2 (some "c1") true 0 {}).all_attendees
      (scrape_loop u_c1 10 1 2 (some "c1") true 0 {}).unique_ids :=
  dedup_invariant.2 u_c1 10 1 2 (some "c1") true 0 {}
    ⟨by simp, List.nodup_nil, by simp⟩

/-! ## C2: termination boundedness -/

lemma scrape_loop_iters_le (u : Upstream) (si : Nat) :
    ∀ (fuel pageNum : Nat) (cursor : Option String) (hasMore : Bool) (ce : Nat)
      (st : LoopState),
      (scrape_loop u si fuel pageNum cursor hasMore ce st).iters ≤ st.iters + fuel := by
  intro fuel
  induction fuel with
  | zero => intro pageNum cursor hasMore ce st; exact Nat.le_add_right _ _
  | succ fuel ih =>
    intro pageNum cursor hasMore ce st
    rw [scrape_loop_succ]
    rcases scrape_step_cases u si pageNum cursor hasMore ce st with
      ⟨hs, -⟩ | ⟨hs, -⟩ | ⟨rd, -, -, ⟨hnil, hs | hs⟩ | ⟨hne, hs | hs⟩⟩ <;> rw [hs]
    · exact Nat.le_add_right _ _
    · show st.iters + 1 ≤ st.iters + (fuel + 1)
      omega
    · show st.iters + 1 ≤ st.iters + (fuel + 1)
      omega
    · have h4 := ih (pageNum + 1) cursor (extract_attendees rd st.unique_ids).has_more
        (ce + 1) (absorb_page pageNum (cursor.getD "") (extract_attendees rd st.unique_ids) st)
      show (scrape_loop u si fuel (pageNum + 1) cursor
        (extract_attendees rd st.unique_ids).has_more (ce + 1)
        (absorb_page pageNum (cursor.getD "") (extract_attendees rd st.unique_ids) st)).iters ≤
          st.iters + (fuel + 1)
      simp only [absorb_page_iters] at h4
      omega
    · show (extend_state si pageNum (extract_attendees rd st.unique_ids)
        (absorb_page pageNum (cursor.getD "") (extract_attendees rd st.unique_ids) st)).iters ≤
          st.iters + (fuel + 1)
      rw [extend_state_iters, absorb_page_iters]
      omega
    · have h4 := ih (pageNum + 1) (extract_attendees rd st.unique_ids).next_cursor
        (extract_attendees rd st.unique_ids).has_more 0
        (extend_state si pageNum (extract_attendees rd st.unique_ids)
          (absorb_page pageNum (cursor.getD "") (extract_attendees rd st.unique_ids) st))
      show (scrape_loop u si fuel (pageNum + 1) (extract_attendees rd st.unique_ids).next_cursor
        (extract_attendees rd st.unique_ids).has_more 0
        (extend_state si pageNum (extract_attendees rd st.unique_ids)
          (absorb_page pageNum (cursor.getD "") (extract_attendees rd st.unique_ids) st))).iters ≤
          st.iters + (fuel + 1)
      simp only [extend_state_iters, absorb_page_iters] at h4
      omega

/-- C2: for every upstream behaviour (pathological ones included: perpetual
    `hasNextPage=true` with a constant cursor, empty or duplicate pages),
    `scrape_all_attendees` issues at most `max_pages_safety = 200` pagination
    requests, i.e. the loop runs at most that many iterations. -/
theorem termination_bounded (u : Upstream) (si : Nat) :
    (scrape_all_attendees u si).iters ≤ max_pages_safety := by
  unfold scrape_all_attendees
  cases u.first with
  | none => exact Nat.zero_le _
  | some rd =>
    refine le_trans (scrape_loop_iters_le u si _ 2 _ _ 0 _) ?_
    show 0 + (max_pages_safety - 1) ≤ max_pages_safety
    decide

/-! ## C3: partial-failure resilience -/

/-- Reference semantics named by the claim: the deduplicated accumulation of a
    sequence of page responses, folding the source's `extract_attendees` over
    the pages with one shared seen set. -/
def spec_accum_pages :
    List (List ApiResult) → List Attendee → Finset String → List Attendee × Finset String
  | [], acc, seen => (acc, seen)
  | rd :: rest, acc, seen =>
    spec_accum_pages rest (acc ++ (extract_attendees rd seen).attendees)
      (extract_attendees rd seen).seen

lemma spec_accum_pages_nil (acc : List Attendee) (seen : Finset String) :
    spec_accum_pages [] acc seen = (acc, seen) := rfl

lemma spec_accum_pages_cons (rd : List ApiResult) (rest : List (List ApiResult))
    (acc : List Attendee) (seen : Finset String) :
    spec_accum_pages (rd :: rest) acc seen =
      spec_accum_pages rest (acc ++ (extract_attendees rd seen).attendees)
        (extract_attendees rd seen).seen := rfl

lemma range_map_cons (ps : Nat → List ApiResult) (p N : Nat) (h : p < N) :
    (List.range (N - p)).map (fun i => ps (p + i)) =
      ps p :: (List.range (N - (p + 1))).map (fun i => ps (p + 1 + i)) := by
  have h1 : N - p = (N - (p + 1)) + 1 := by omega
  rw [h1, List.range_succ_eq_map, List.map_cons, List.map_map]
  refine congrArg₂ List.cons rfl ?_
  refine List.map_congr_left ?_
  intro a ha
  show ps (p + (a + 1)) = ps (p + 1 + a)
  exact congrArg ps (by omega)

/-- If page `N` always fails, the loop entered at `pageNum ≤ N` issues at most
    `N - pageNum + 1` further requests (it cannot get past page `N`). -/
lemma scrape_loop_iters_stop (u : Upstream) (si N : Nat)
    (herr : ∀ c, u.next N c = none) :
    ∀ (fuel pageNum : Nat) (cursor : Option String) (hasMore : Bool) (ce : Nat)
      (st : LoopState), pageNum ≤ N →
      (scrape_loop u si fuel pageNum cursor hasMore ce st).iters ≤
        st.iters + (N - pageNum) + 1 := by
  intro fuel
  induction fuel with
  | zero =>
    intro pageNum cursor hasMore ce st hle
    show st.iters ≤ st.iters + (N - pageNum) + 1
    omega
  | succ fuel ih =>
    intro pageNum cursor hasMore ce st hle
    rw [scrape_loop_succ]
    rcases scrape_step_cases u si pageNum cursor hasMore ce st with
      ⟨hs, -⟩ | ⟨hs, -⟩ | ⟨rd, hf, -, ⟨hnil, hs | hs⟩ | ⟨hne, hs | hs⟩⟩ <;> rw [hs]
    · show st.iters ≤ st.iters + (N - pageNum) + 1
      omega
    · show st.iters + 1 ≤ st.iters + (N - pageNum) + 1
      omega
    · show st.iters + 1 ≤ st.iters + (N - pageNum) + 1
      omega
    · have hlt : pageNum < N := by
        rcases Nat.lt_or_ge pageNum N with h | h
        · exact h
        · have hpn : pageNum = N := le_antisymm hle h
          rw [hpn, herr] at hf
          cases hf
      refine le_trans (ih (pageNum + 1) cursor (extract_attendees rd st.unique_ids).has_more
        (ce + 1) (absorb_page pageNum (cursor.getD "") (extract_attendees rd st.unique_ids) st)
        (by omega)) ?_
      simp only [absorb_page_iters]
      omega
    · show (extend_state si pageNum (extract_attendees rd st.unique_ids)
        (absorb_page pageNum (cursor.getD "") (extract_attendees rd st.unique_ids) st)).iters ≤
          st.iters + (N - pageNum) + 1
      simp only [extend_state_iters, absorb_page_iters]
      omega
    · have hlt : pageNum < N := by
        rcases Nat.lt_or_ge pageNum N with h | h
        · exact h
        · have hpn : pageNum = N := le_antisymm hle h
          rw [hpn, herr] at hf
          cases hf
      refine le_trans (ih (pageNum + 1) (extract_attendees rd st.unique_ids).next_cursor
        (extract_attendees rd st.unique_ids).has_more 0
        (extend_state si pageNum (extract_attendees rd st.unique_ids)
          (absorb_page pageNum (cursor.getD "") (extract_attendees rd st.unique_ids) st))
        (by omega)) ?_
      simp only [extend_state_iters, absorb_page_iters]
      omega

/-- Core accumulation lemma: when every page before `N` succeeds with response
    `ps k`, page `N` always fails, and the run actually issued enough requests
    to have attempted page `N`, the loop's final record list is the
    accumulation of the remaining successful pages. -/
lemma scrape_loop_partial (u : Upstream) (si N : Nat) (ps : Nat → List ApiResult)
    (hok : ∀ k, 2 ≤ k → k < N → ∀ c, u.next k c = some (ps k))
    (herr : ∀ c, u.next N c = none) :
    ∀ (fuel pageNum : Nat) (cursor : Option String) (hasMore : Bool) (ce : Nat)
      (st : LoopState),
      2 ≤ pageNum → pageNum ≤ N →
      st.iters + (N - pageNum) ≤ (scrape_loop u si fuel pageNum cursor hasMore ce st).iters →
      (scrape_loop u si fuel pageNum cursor hasMore ce st).all_attendees =
        (spec_accum_pages ((List.range (N - pageNum)).map (fun i => ps (pageNum + i)))
          st.all_attendees st.unique_ids).1 := by
  intro fuel
  induction fuel with
  | zero =>
    intro pageNum cursor hasMore ce st h2 hle hiter
    have h0 : N - pageNum = 0 := by
      have : st.iters + (N - pageNum) ≤ st.iters := hiter
      omega
    rw [h0]
    rfl
  | succ fuel ih =>
    intro pageNum cursor hasMore ce st h2 hle hiter
    rw [scrape_loop_succ] at hiter ⊢
    rcases scrape_step_cases u si pageNum cursor hasMore ce st with
      ⟨hs, -⟩ | ⟨hs, hferr⟩ | ⟨rd, hf, -, hinner⟩
    · rw [hs] at hiter ⊢
      have h0 : N - pageNum = 0 := by
        have : st.iters + (N - pageNum) ≤ st.iters := hiter
        omega
      rw [h0]
      rfl
    · rw [hs] at hiter ⊢
      have hpn : pageNum = N := by
        rcases Nat.lt_or_ge pageNum N with h | h
        · rw [hok pageNum h2 h (cursor.getD "")] at hferr
          cases hferr
        · exact le_antisymm hle h
      have h0 : N - pageNum = 0 := by omega
      rw [h0]
      rfl
    · have hlt : pageNum < N := by
        rcases Nat.lt_or_ge pageNum N with h | h
        · exact h
        · have hpn : pageNum = N := le_antisymm hle h
          rw [hpn, herr] at hf
          cases hf
      have hrd : rd = ps pageNum := by
        have hsome := hok pageNum h2 hlt (cursor.getD "")
        rw [hf] at hsome
        exact Option.some.inj hsome
      rw [range_map_cons ps pageNum N hlt, spec_accum_pages_cons, ← hrd]
      rcases hinner with ⟨hnil, hs | hs⟩ | ⟨hne, hs | hs⟩
      · rw [hs] at hiter ⊢
        have hb : st.iters + (N - pageNum) ≤ st.iters + 1 := hiter
        have hN1 : N = pageNum + 1 := by omega
        rw [hN1]
        simp [hnil, spec_accum_pages]
      · rw [hs] at hiter ⊢
        have hiter' : st.iters + (N - pageNum) ≤
            (scrape_loop u si fuel (pageNum + 1) cursor
              (extract_attendees rd st.unique_ids).has_more (ce + 1)
              (absorb_page pageNum (cursor.getD "") (extract_attendees rd st.unique_ids) st)).iters :=
          hiter
        have hrec := ih (pageNum + 1) cursor (extract_attendees rd st.unique_ids).has_more
          (ce + 1) (absorb_page pageNum (cursor.getD "") (extract_attendees rd st.unique_ids) st)
          (by omega) hlt (by simp only [absorb_page_iters]; omega)
        show (scrape_loop u si fuel (pageNum + 1) cursor
            (extract_attendees rd st.unique_ids).has_more (ce + 1)
            (absorb_page pageNum (cursor.getD "") (extract_attendees rd st.unique_ids) st)).all_attendees = _
        rw [hrec]
        simp [hnil]
      · rw [hs] at hiter ⊢
        have hb : st.iters + (N - pageNum) ≤ st.iters + 1 := by
          simpa only [extend_state_iters, absorb_page_iters] using hiter
        have hN1 : N = pageNum + 1 := by omega
        rw [hN1]
        simp [spec_accum_pages]
      · rw [hs] at hiter ⊢
        have hiter' : st.iters + (N - pageNum) ≤
            (scrape_loop u si fuel (pageNum + 1) (extract_attendees rd st.unique_ids).next_cursor
              (extract_attendees rd st.unique_ids).has_more 0
              (extend_state si pageNum (extract_attendees rd st.unique_ids)
                (absorb_page pageNum (cursor.getD "") (extract_attendees rd st.unique_ids) st))).iters :=
          hiter
        have hrec := ih (pageNum + 1) (extract_attendees rd st.unique_ids).next_cursor
          (extract_attendees rd st.unique_ids).has_more 0
          (extend_state si pageNum (extract_attendees rd st.unique_ids)
            (absorb_page pageNum (cursor.getD "") (extract_attendees rd st.unique_ids) st))
          (by omega) hlt
          (by simp only [extend_state_iters, absorb_page_iters]; omega)
        show (scrape_loop u si fuel (pageNum + 1)
            (extract_attendees rd st.unique_ids).next_cursor
            (extract_attendees rd st.unique_ids).has_more 0
            (extend_state si pageNum (extract_attendees rd st.unique_ids)
              (absorb_page pageNum (cursor.getD "") (extract_attendees rd st.unique_ids) st))).all_attendees = _
        rw [hrec]
        simp

/-- C3: for every N ≥ 2, if pages 1..N-1 succeed (responses `ps 1 .. ps (N-1)`),
    the fetch of page N fails with a transport error, and the run did attempt
    page N, then `scrape_all_attendees` returns (without any exception — it is
    a total function of the oracle) exactly the deduplicated accumulation of
    the records of pages 1..N-1, and stops right there. -/
theorem partial_failure_resilience (u : Upstream) (si N : Nat) (ps : Nat → List ApiResult)
    (hN : 2 ≤ N)
    (h1 : u.first = some (ps 1))
    (hok : ∀ k, 2 ≤ k → k < N → ∀ c, u.next k c = some (ps k))
    (herr : ∀ c, u.next N c = none)
    (hreach : N - 1 ≤ (scrape_all_attendees u si).iters) :
    (scrape_all_attendees u si).all_attendees =
      (spec_accum_pages ((List.range (N - 1)).map (fun i => ps (1 + i))) [] ∅).1 ∧
    (scrape_all_attendees u si).iters = N - 1 := by
  have hrun : scrape_all_attendees u si =
      scrape_loop u si (max_pages_safety - 1) 2
        (extract_attendees (ps 1) ∅).next_cursor (extract_attendees (ps 1) ∅).has_more 0
        { all_attendees := (extract_attendees (ps 1) ∅).attendees
          unique_ids := (extract_attendees (ps 1) ∅).seen
          total_count := store_total (extract_attendees (ps 1) ∅).total_count } := by
    unfold scrape_all_attendees
    rw [h1]
  rw [hrun] at hreach ⊢
  have hup : (scrape_loop u si (max_pages_safety - 1) 2
      (extract_attendees (ps 1) ∅).next_cursor (extract_attendees (ps 1) ∅).has_more 0
      { all_attendees := (extract_attendees (ps 1) ∅).attendees
        unique_ids := (extract_attendees (ps 1) ∅).seen
        total_count := store_total (extract_attendees (ps 1) ∅).total_count }).iters ≤ N - 1 := by
    refine le_trans (scrape_loop_iters_stop u si N herr _ 2 _ _ 0 _ hN) ?_
    show 0 + (N - 2) + 1 ≤ N - 1
    omega
  have hiters : (scrape_loop u si (max_pages_safety - 1) 2
      (extract_attendees (ps 1) ∅).next_cursor (extract_attendees (ps 1) ∅).has_more 0
      { all_attendees := (extract_attendees (ps 1) ∅).attendees
        unique_ids := (extract_attendees (ps 1) ∅).seen
        total_count := store_total (extract_attendees (ps 1) ∅).total_count }).iters = N - 1 :=
    le_antisymm hup hreach
  refine ⟨?_, hiters⟩
  have hmain := scrape_loop_partial u si N ps hok herr (max_pages_safety - 1) 2
    (extract_attendees (ps 1) ∅).next_cursor (extract_attendees (ps 1) ∅).has_more 0
    { all_attendees := (extract_attendees (ps 1) ∅).attendees
      unique_ids := (extract_attendees (ps 1) ∅).seen
      total_count := store_total (extract_attendees (ps 1) ∅).total_count }
    (by omega) hN (by rw [hiters]; show 0 + (N - 2) ≤ N - 1; omega)
  rw [hmain, range_map_cons ps 1 N (by omega), spec_accum_pages_cons]
  rfl

/-- Page fixture for the C3 witness: pages 1 and 2 succeed, page 3 fails. -/
def ps_c3 : Nat → List ApiResult := fun k =>
  if k = 1 then page_of none [person_of "A"] true (some "c1")
  else if k = 2 then page_of none [person_of "B"] true (some "c2")
  else []

/-- Upstream fixture for the C3 witness. -/
def u_c3 : Upstream :=
  { first := some (ps_c3 1)
    next := fun k _ => if k < 3 then some (ps_c3 k) else none }

/-- Witness for C3 at N = 3: the run returns the accumulation of pages 1..2
    and stops after the failed request of page 3. -/
theorem partial_failure_resilience_witness :
    (scrape_all_attendees u_c3 10).all_attendees =
      (spec_accum_pages ((List.range 2).map (fun i => ps_c3 (1 + i))) [] ∅).1 ∧
    (scrape_all_attendees u_c3 10).iters = 2 :=
  partial_failure_resilience u_c3 10 3 ps_c3 (by decide) rfl
    (fun k h2 h3 c => by
      have hk : k = 2 := by omega
      subst hk
      rfl)
    (fun c => rfl)
    (by decide)

/-! ## C4: behaviour of checkpoints on transport errors -/

lemma extend_state_checkpoints_mem (si pageNum : Nat) (e : ExtractResult)
    (st1 : LoopState) :
    ∀ pc ∈ (extend_state si pageNum e st1).checkpoints,
      pc ∈ st1.checkpoints ∨
      (pc.1 = pageNum ∧ pageNum % si = 0 ∧
        pc.2 = { attendees := st1.all_attendees ++ e.attendees
                 unique_count := st1.unique_ids.card
                 total_expected := st1.total_count }) := by
  intro pc hpc
  rw [extend_state_checkpoints] at hpc
  by_cases h : pageNum % si = 0
  · rw [if_pos h] at hpc
    rcases List.mem_append.mp hpc with h1 | h1
    · exact Or.inl h1
    · simp only [List.mem_singleton] at h1
      subst h1
      exact Or.inr ⟨rfl, h, rfl⟩
  · rw [if_neg h] at hpc
    exact Or.inl hpc

/-- If page `p` always fails, no checkpoint with filename page ≥ `p` can ever
    be written: the loop breaks at `p` before reaching the checkpoint call. -/
lemma scrape_loop_ckpt_lt (u : Upstream) (si p : Nat) (herr : ∀ c, u.next p c = none) :
    ∀ (fuel pageNum : Nat) (cursor : Option String) (hasMore : Bool) (ce : Nat)
      (st : LoopState), pageNum ≤ p →
      (∀ pc ∈ st.checkpoints, pc.1 < p) →
      ∀ pc ∈ (scrape_loop u si fuel pageNum cursor hasMore ce st).checkpoints, pc.1 < p := by
  intro fuel
  induction fuel with
  | zero => intro pageNum cursor hasMore ce st hle hck; exact hck
  | succ fuel ih =>
    intro pageNum cursor hasMore ce st hle hck
    rw [scrape_loop_succ]
    rcases scrape_step_cases u si pageNum cursor hasMore ce st with
      ⟨hs, -⟩ | ⟨hs, -⟩ | ⟨rd, hf, -, ⟨hnil, hs | hs⟩ | ⟨hne, hs | hs⟩⟩ <;> rw [hs]
    · exact hck
    · exact hck
    · exact hck
    · have hlt : pageNum < p := by
        rcases Nat.lt_or_ge pageNum p with h | h
        · exact h
        · have hpn : pageNum = p := le_antisymm hle h
          rw [hpn, herr] at hf
          cases hf
      exact ih (pageNum + 1) _ _ _ _ (by omega) hck
    · have hlt : pageNum < p := by
        rcases Nat.lt_or_ge pageNum p with h | h
        · exact h
        · have hpn : pageNum = p := le_antisymm hle h
          rw [hpn, herr] at hf
          cases hf
      intro pc hpc
      rcases extend_state_checkpoints_mem si pageNum (extract_attendees rd st.unique_ids)
        (absorb_page pageNum (cursor.getD "") (extract_attendees rd st.unique_ids) st) pc hpc with
        h1 | ⟨h1, -, -⟩
      · exact hck pc h1
      · omega
    · have hlt : pageNum < p := by
        rcases Nat.lt_or_ge pageNum p with h | h
        · exact h
        · have hpn : pageNum = p := le_antisymm hle h
          rw [hpn, herr] at hf
          cases hf
      refine ih (pageNum + 1) _ _ _ _ (by omega) ?_
      intro pc hpc
      rcases extend_state_checkpoints_mem si pageNum (extract_attendees rd st.unique_ids)
        (absorb_page pageNum (cursor.getD "") (extract_attendees rd st.unique_ids) st) pc hpc with
        h1 | ⟨h1, -, -⟩
      · exact hck pc h1
      · omega

/-- Upstream fixture for C4: the first page yields one record, every
    pagination request fails. -/
def u_c4 : Upstream :=
  { first := some (page_of none [person_of "A"] true (some "c1"))
    next := fun _ _ => none }

/-- Counterexample to C4 as stated: in the run `scrape_all_attendees u_c4 10`
    the fetch of page 2 raises a transport error and a nonempty partial result
    is returned, yet NO checkpoint of any kind is written before returning. -/
theorem no_final_checkpoint_cex :
    (scrape_all_attendees u_c4 10).checkpoints = [] ∧
    (scrape_all_attendees u_c4 10).all_attendees ≠ [] ∧
    (scrape_all_attendees u_c4 10).iters = 1 ∧
    u_c4.next 2 "c1" = none := by decide

/-- C4 amended: on a transport error at page `p` the loop aborts at that page
    and returns the accumulated partial result WITHOUT writing a final
    checkpoint: every checkpoint written in the whole run comes from a page
    strictly before `p`, and no request beyond page `p` is ever issued. -/
theorem checkpoint_not_written_on_error (u : Upstream) (si p : Nat)
    (hp : 2 ≤ p) (herr : ∀ c, u.next p c = none) :
    (∀ pc ∈ (scrape_all_attendees u si).checkpoints, pc.1 < p) ∧
    (scrape_all_attendees u si).iters ≤ p - 1 := by
  constructor
  · unfold scrape_all_attendees
    cases u.first with
    | none => intro pc hpc; exact absurd hpc (List.not_mem_nil _)
    | some rd =>
      refine scrape_loop_ckpt_lt u si p herr _ 2 _ _ 0 _ hp ?_
      intro pc hpc
      exact absurd hpc (List.not_mem_nil _)
  · unfold scrape_all_attendees
    cases u.first with
    | none => exact Nat.zero_le _
    | some rd =>
      refine le_trans (scrape_loop_iters_stop u si p herr _ 2 _ _ 0 _ hp) ?_
      show 0 + (p - 2) + 1 ≤ p - 1
      omega

/-- Witness for the amended C4 at the concrete failing run. -/
theorem checkpoint_not_written_on_error_witness :
    (∀ pc ∈ (scrape_all_attendees u_c4 10).checkpoints, pc.1 < 2) ∧
    (scrape_all_attendees u_c4 10).iters ≤ 1 :=
  checkpoint_not_written_on_error u_c4 10 2 (by decide) (fun c => rfl)

/-! ## C5: checkpoint contents -/

lemma scrape_loop_total_count (u : Upstream) (si : Nat) :
    ∀ (fuel pageNum : Nat) (cursor : Option String) (hasMore : Bool) (ce : Nat)
      (st : LoopState),
      (scrape_loop u si fuel pageNum cursor hasMore ce st).total_count = st.total_count := by
  intro fuel
  induction fuel with
  | zero => intro pageNum cursor hasMore ce st; rfl
  | succ fuel ih =>
    intro pageNum cursor hasMore ce st
    rcases scrape_step_cases u si pageNum cursor hasMore ce st with
      ⟨hs, -⟩ | ⟨hs, -⟩ | ⟨rd, hf, -, ⟨hnil, hs | hs⟩ | ⟨hne, hs | hs⟩⟩
    · rw [scrape_loop_succ_inl hs]
    · rw [scrape_loop_succ_inl hs]
    · rw [scrape_loop_succ_inl hs, absorb_page_total_count]
    · rw [scrape_loop_succ_inr hs, ih, absorb_page_total_count]
    · rw [scrape_loop_succ_inl hs, extend_state_total_count, absorb_page_total_count]
    · rw [scrape_loop_succ_inr hs, ih, extend_state_total_count, absorb_page_total_count]

/-- Soundness of every checkpoint body ever written: a snapshot of the record
    list at write time, with `unique_count` equal to its length (= the card of
    the seen set), distinct ids, and the run's expected total. -/
def ckpt_content_ok (total : Option Nat) (st : LoopState) : Prop :=
  ∀ pc ∈ st.checkpoints,
    (pc : Nat × Checkpoint).2.attendees ≠ [] ∧
    pc.2.unique_count = pc.2.attendees.length ∧
    (pc.2.attendees.map (fun a => a.id)).Nodup ∧
    pc.2.total_expected = total

lemma scrape_loop_ckpt_content (u : Upstream) (si : Nat) :
    ∀ (fuel pageNum : Nat) (cursor : Option String) (hasMore : Bool) (ce : Nat)
      (st : LoopState),
      dedup_inv st.all_attendees st.unique_ids →
      ckpt_content_ok st.total_count st →
      ckpt_content_ok st.total_count (scrape_loop u si fuel pageNum cursor hasMore ce st) := by
  intro fuel
  induction fuel with
  | zero => intro pageNum cursor hasMore ce st hdi hck; exact hck
  | succ fuel ih =>
    intro pageNum cursor hasMore ce st hdi hck
    rw [scrape_loop_succ]
    rcases scrape_step_cases u si pageNum cursor hasMore ce st with
      ⟨hs, -⟩ | ⟨hs, -⟩ | ⟨rd, hf, -, ⟨hnil, hs | hs⟩ | ⟨hne, hs | hs⟩⟩ <;> rw [hs]
    · exact hck
    · exact hck
    · exact hck
    · have he := extract_attendees_dedup rd st.unique_ids st.all_attendees hdi
      exact ih (pageNum + 1) _ _ _ _ (by simpa [dedup_inv, hnil] using he) hck
    · obtain ⟨hlen, hnd, hmem⟩ := extract_attendees_dedup rd st.unique_ids st.all_attendees hdi
      intro pc hpc
      rcases extend_state_checkpoints_mem si pageNum (extract_attendees rd st.unique_ids)
        (absorb_page pageNum (cursor.getD "") (extract_attendees rd st.unique_ids) st) pc hpc with
        h1 | ⟨-, -, h2⟩
      · exact hck pc h1
      · rw [h2]
        simp only [absorb_page_all_attendees, absorb_page_unique_ids, absorb_page_total_count]
        refine ⟨?_, hlen.symm, hnd, trivial⟩
        intro hx
        exact hne (List.append_eq_nil.mp hx).2
    · obtain ⟨hlen, hnd, hmem⟩ := extract_attendees_dedup rd st.unique_ids st.all_attendees hdi
      show ckpt_content_ok st.total_count
        (scrape_loop u si fuel (pageNum + 1) (extract_attendees rd st.unique_ids).next_cursor
          (extract_attendees rd st.unique_ids).has_more 0
          (extend_state si pageNum (extract_attendees rd st.unique_ids)
            (absorb_page pageNum (cursor.getD "") (extract_attendees rd st.unique_ids) st)))
      have htc : (extend_state si pageNum (extract_attendees rd st.unique_ids)
          (absorb_page pageNum (cursor.getD "") (extract_attendees rd st.unique_ids) st)).total_count
          = st.total_count := by
        rw [extend_state_total_count]
        rfl
      rw [← htc]
      refine ih (pageNum + 1) _ _ _ _ ?_ ?_
      · simp only [extend_state_all_attendees, extend_state_unique_ids,
          absorb_page_all_attendees, absorb_page_unique_ids]
        exact ⟨hlen, hnd, hmem⟩
      · rw [htc]
        intro pc hpc
        rcases extend_state_checkpoints_mem si pageNum (extract_attendees rd st.unique_ids)
          (absorb_page pageNum (cursor.getD "") (extract_attendees rd st.unique_ids) st) pc hpc with
          h1 | ⟨-, -, h2⟩
        · exact hck pc h1
        · rw [h2]
          simp only [absorb_page_all_attendees, absorb_page_unique_ids, absorb_page_total_count]
          refine ⟨?_, hlen.symm, hnd, trivial⟩
          intro hx
          exact hne (List.append_eq_nil.mp hx).2

/-- Counterexample to C5 as stated: the checkpoint JSON written by
    `save_checkpoint` does NOT contain the set of seen ids — two states whose
    seen-id sets differ produce identical checkpoint documents (only the count
    `unique_count` is stored), so the set is not part of the snapshot. -/
theorem checkpoint_missing_seen_ids_cex :
    save_checkpoint { all_attendees := [], unique_ids := {"a"}, total_count := none } =
      save_checkpoint { all_attendees := [], unique_ids := {"b"}, total_count := none } ∧
    ({"a"} : Finset String) ≠ {"b"} := by decide

/-- C5 amended: every checkpoint written during any run is a snapshot holding
    the accumulated record list at write time (nonempty, ids pairwise
    distinct), the COUNT of seen ids — which equals the list's length, the
    seen-id set itself being recoverable only as the ids of the records — and
    the run's expected total; the page number appears only in the checkpoint
    filename (the `Nat` of the pair), not in the document body. -/
theorem checkpoint_contents (u : Upstream) (si : Nat) :
    ∀ pc ∈ (scrape_all_attendees u si).checkpoints,
      (pc : Nat × Checkpoint).2.attendees ≠ [] ∧
      pc.2.unique_count = pc.2.attendees.length ∧
      (pc.2.attendees.map (fun a => a.id)).Nodup ∧
      pc.2.total_expected = (scrape_all_attendees u si).total_count := by
  unfold scrape_all_attendees
  cases hf : u.first with
  | none => intro pc hpc; exact absurd hpc (List.not_mem_nil _)
  | some rd =>
    have h0 : dedup_inv ([] : List Attendee) (∅ : Finset String) :=
      ⟨by simp, List.nodup_nil, by simp⟩
    have he := extract_attendees_dedup rd ∅ [] h0
    have hmain := scrape_loop_ckpt_content u si (max_pages_safety - 1) 2
      (extract_attendees rd ∅).next_cursor (extract_attendees rd ∅).has_more 0
      { all_attendees := (extract_attendees rd ∅).attendees
        unique_ids := (extract_attendees rd ∅).seen
        total_count := store_total (extract_attendees rd ∅).total_count }
      (by simpa [dedup_inv] using he)
      (fun pc hpc => absurd hpc (List.not_mem_nil _))
    intro pc hpc
    obtain ⟨h1, h2, h3, h4⟩ := hmain pc hpc
    refine ⟨h1, h2, h3, ?_⟩
    rw [h4, scrape_loop_total_count]

/-- Upstream fixture for the C5/C6 witnesses: page 1 yields record A, page 2
    yields record B and is the last page; with `save_interval = 2` the run
    writes exactly one checkpoint, at page 2. -/
def u_c5 : Upstream :=
  { first := some (page_of none [person_of "A"] true (some "c1"))
    next := fun k _ => if k = 2 then some (page_of none [person_of "B"] false none) else none }

/-- The checkpoint body written at page 2 of the `u_c5` run. -/
def ckpt_c5 : Checkpoint :=
  { attendees := [mk_attendee "A" (person_of "A"), mk_attendee "B" (person_of "B")]
    unique_count := 2
    total_expected := none }

/-- Witness for the amended C5 at the concrete checkpoint of the `u_c5` run. -/
theorem checkpoint_contents_witness :
    ckpt_c5.attendees ≠ [] ∧
    ckpt_c5.unique_count = ckpt_c5.attendees.length ∧
    (ckpt_c5.attendees.map (fun a => a.id)).Nodup ∧
    ckpt_c5.total_expected = (scrape_all_attendees u_c5 2).total_count :=
  checkpoint_contents u_c5 2 (2, ckpt_c5) (by decide)

/-! ## C6: checkpoint periodicity -/

lemma extend_state_checkpoints_super (si pageNum : Nat) (e : ExtractResult)
    (st1 : LoopState) :
    ∀ pc ∈ st1.checkpoints, pc ∈ (extend_state si pageNum e st1).checkpoints := by
  intro pc hpc
  rw [extend_state_checkpoints]
  by_cases h : pageNum % si = 0
  · rw [if_pos h]
    exact List.mem_append_left _ hpc
  · rw [if_neg h]
    exact hpc

lemma extend_state_checkpoint_new (si pageNum : Nat) (e : ExtractResult) (st1 : LoopState)
    (h : pageNum % si = 0) :
    (pageNum, ({ attendees := st1.all_attendees ++ e.attendees
                 unique_count := st1.unique_ids.card
                 total_expected := st1.total_count } : Checkpoint)) ∈
      (extend_state si pageNum e st1).checkpoints := by
  rw [extend_state_checkpoints, if_pos h]
  exact List.mem_append_right _ (List.mem_singleton_self _)

/-- Correspondence between the page log and the written checkpoints:
    every checkpoint sits at a processed page that is a multiple of the save
    interval and contributed new records, and conversely every such page has a
    checkpoint. -/
def pages_checkpoint_ok (si : Nat) (st : LoopState) : Prop :=
  (∀ pc ∈ st.checkpoints, (pc : Nat × Checkpoint).1 % si = 0 ∧ 2 ≤ pc.1 ∧
      ∃ ev ∈ st.pages, ev.page = pc.1 ∧ ev.newCount ≠ 0) ∧
  (∀ ev ∈ st.pages, ev.newCount ≠ 0 → ev.page % si = 0 →
      ∃ c, (ev.page, c) ∈ st.checkpoints)

lemma absorb_pages_ckpt (si pageNum : Nat) (c : String) (e : ExtractResult)
    (st : LoopState) (hnil : e.attendees = [])
    (h : pages_checkpoint_ok si st) :
    pages_checkpoint_ok si (absorb_page pageNum c e st) := by
  obtain ⟨hc, hp⟩ := h
  constructor
  · intro pc hpc
    obtain ⟨g1, g2, ev, hev, he1, he2⟩ := hc pc hpc
    exact ⟨g1, g2, ev, List.mem_append_left _ hev, he1, he2⟩
  · intro ev hev hn hm
    rw [absorb_page_pages] at hev
    rcases List.mem_append.mp hev with h1 | h1
    · exact hp ev h1 hn hm
    · simp only [List.mem_singleton] at h1
      subst h1
      exact absurd (by simp [page_event, hnil]) hn

lemma extend_pages_ckpt (si pageNum : Nat) (c : String) (e : ExtractResult)
    (st : LoopState) (h2 : 2 ≤ pageNum) (hne : e.attendees ≠ [])
    (h : pages_checkpoint_ok si st) :
    pages_checkpoint_ok si (extend_state si pageNum e (absorb_page pageNum c e st)) := by
  obtain ⟨hc, hp⟩ := h
  constructor
  · intro pc hpc
    rcases extend_state_checkpoints_mem si pageNum e (absorb_page pageNum c e st)
      pc hpc with h1 | ⟨h1, hm, -⟩
    · obtain ⟨g1, g2, ev, hev, he1, he2⟩ := hc pc h1
      refine ⟨g1, g2, ev, ?_, he1, he2⟩
      rw [extend_state_pages, absorb_page_pages]
      exact List.mem_append_left _ hev
    · refine ⟨by rw [h1]; exact hm, by rw [h1]; exact h2, page_event pageNum c e, ?_, ?_, ?_⟩
      · rw [extend_state_pages, absorb_page_pages]
        exact List.mem_append_right _ (List.mem_singleton_self _)
      · rw [h1]
        rfl
      · show e.attendees.length ≠ 0
        intro h0
        exact hne (List.eq_nil_of_length_eq_zero h0)
  · intro ev hev hn hm
    rw [extend_state_pages, absorb_page_pages] at hev
    rcases List.mem_append.mp hev with h1 | h1
    · obtain ⟨cw, hcm⟩ := hp ev h1 hn hm
      exact ⟨cw, extend_state_checkpoints_super si pageNum _ _ _ hcm⟩
    · simp only [List.mem_singleton] at h1
      subst h1
      have hm2 : pageNum % si = 0 := hm
      exact ⟨_, extend_state_checkpoint_new si pageNum e _ hm2⟩

lemma scrape_loop_pages_ckpt (u : Upstream) (si : Nat) :
    ∀ (fuel pageNum : Nat) (cursor : Option String) (hasMore : Bool) (ce : Nat)
      (st : LoopState),
      2 ≤ pageNum → pages_checkpoint_ok si st →
      pages_checkpoint_ok si (scrape_loop u si fuel pageNum cursor hasMore ce st) := by
  intro fuel
  induction fuel with
  | zero => intro pageNum cursor hasMore ce st h2 h; exact h
  | succ fuel ih =>
    intro pageNum cursor hasMore ce st h2 h
    rcases scrape_step_cases u si pageNum cursor hasMore ce st with
      ⟨hs, -⟩ | ⟨hs, -⟩ | ⟨rd, hf, -, ⟨hnil, hs | hs⟩ | ⟨hne, hs | hs⟩⟩
    · rw [scrape_loop_succ_inl hs]
      exact h
    · rw [scrape_loop_succ_inl hs]
      exact h
    · rw [scrape_loop_succ_inl hs]
      exact absorb_pages_ckpt si pageNum (cursor.getD "") _ st hnil h
    · rw [scrape_loop_succ_inr hs]
      exact ih (pageNum + 1) _ _ _ _ (by omega)
        (absorb_pages_ckpt si pageNum (cursor.getD "") _ st hnil h)
    · rw [scrape_loop_succ_inl hs]
      exact extend_pages_ckpt si pageNum (cursor.getD "") _ st h2 hne h
    · rw [scrape_loop_succ_inr hs]
      exact ih (pageNum + 1) _ _ _ _ (by omega)
        (extend_pages_ckpt si pageNum (cursor.getD "") _ st h2 hne h)

/-- Upstream fixture for the C6 counterexample: page 2 repeats record A (zero
    new records), page 3 delivers B and ends the run. -/
def u_c6 : Upstream :=
  { first := some (page_of none [person_of "A"] true (some "c1"))
    next := fun k _ =>
      if k = 2 then some (page_of none [person_of "A"] true (some "c2"))
      else if k = 3 then some (page_of none [person_of "B"] false none)
      else none }

/-- Counterexample to C6 as stated: with `save_interval = 2`, page 2 is
    processed and `2 % 2 = 0`, but because it contributed zero new records the
    source skips the checkpoint call (it sits inside `if attendees:`), so the
    run writes no checkpoint at all. -/
theorem checkpoint_skipped_on_empty_page_cex :
    (scrape_all_attendees u_c6 2).checkpoints = [] ∧
    (∃ ev ∈ (scrape_all_attendees u_c6 2).pages, ev.page = 2 ∧ ev.newCount = 0) ∧
    2 % 2 = 0 := by decide

/-- C6 amended: a checkpoint is written exactly for the processed pages whose
    page number is a multiple of `save_interval` AND that contributed at least
    one new record; pages at multiples with zero new records write nothing. -/
theorem checkpoint_multiples (u : Upstream) (si : Nat) :
    (∀ pc ∈ (scrape_all_attendees u si).checkpoints,
        (pc : Nat × Checkpoint).1 % si = 0 ∧ 2 ≤ pc.1 ∧
        ∃ ev ∈ (scrape_all_attendees u si).pages, ev.page = pc.1 ∧ ev.newCount ≠ 0) ∧
    (∀ ev ∈ (scrape_all_attendees u si).pages, ev.newCount ≠ 0 → ev.page % si = 0 →
        ∃ c, (ev.page, c) ∈ (scrape_all_attendees u si).checkpoints) := by
  have h : pages_checkpoint_ok si (scrape_all_attendees u si) := by
    unfold scrape_all_attendees
    cases u.first with
    | none =>
      constructor
      · intro pc hpc
        exact absurd hpc (List.not_mem_nil _)
      · intro ev hev
        exact absurd hev (List.not_mem_nil _)
    | some rd =>
      refine scrape_loop_pages_ckpt u si _ 2 _ _ 0 _ (by omega) ?_
      constructor
      · intro pc hpc
        exact absurd hpc (List.not_mem_nil _)
      · intro ev hev
        exact absurd hev (List.not_mem_nil _)
  exact h

/-- Witness for the amended C6: in the `u_c5` run with `save_interval = 2`,
    page 2 contributed a new record and `2 % 2 = 0`, so a checkpoint with
    filename page 2 exists. -/
theorem checkpoint_multiples_witness :
    ∃ c, (2, c) ∈ (scrape_all_attendees u_c5 2).checkpoints :=
  (checkpoint_multiples u_c5 2).2
    { page := 2, sentCursor := "c1", newCount := 1, respCursor := none, respHasMore := false }
    (by decide) (by decide) (by decide)

/-! ## C7: cursor advance -/

lemma cursorOk_getD {cursor : Option String} (h : cursorOk cursor = true) :
    cursor = some (cursor.getD "") := by
  cases cursor with
  | none => cases h
  | some s => rfl

/-- Relation between two consecutively processed pages: the page numbers are
    consecutive, and the cursor sent for the later page is the SAME cursor the
    earlier page was fetched with when that page contributed zero new records,
    and the earlier response's `next_cursor` otherwise. -/
def cursor_rule (ev ev' : PageEvent) : Prop :=
  ev'.page = ev.page + 1 ∧
  (ev.newCount = 0 → ev'.sentCursor = ev.sentCursor) ∧
  (ev.newCount ≠ 0 → ev.respCursor = some ev'.sentCursor)

/-- How the pending loop cursor relates to the last processed page. -/
def link_ok (ev : PageEvent) (cursor : Option String) : Prop :=
  (ev.newCount = 0 → cursor = some ev.sentCursor) ∧
  (ev.newCount ≠ 0 → cursor = ev.respCursor)

lemma chain_snoc (st : LoopState) (pageNum : Nat) (cursor : Option String)
    (e : ExtractResult)
    (hchain : List.Chain' cursor_rule st.pages)
    (hlast : ∀ ev, st.pages.getLast? = some ev → ev.page + 1 = pageNum ∧ link_ok ev cursor)
    (hcg : cursor = some (cursor.getD "")) :
    List.Chain' cursor_rule (st.pages ++ [page_event pageNum (cursor.getD "") e]) := by
  rw [List.chain'_append]
  refine ⟨hchain, List.chain'_singleton _, ?_⟩
  intro x hx y hy
  simp only [List.head?_cons, Option.mem_def, Option.some.injEq] at hy
  subst hy
  obtain ⟨hpage, hlk⟩ := hlast x (Option.mem_def.mp hx)
  refine ⟨hpage.symm, ?_, ?_⟩
  · intro hx0
    have hcur := hlk.1 hx0
    show cursor.getD "" = x.sentCursor
    simp [hcur]
  · intro hx0
    have hcur := hlk.2 hx0
    show x.respCursor = some (cursor.getD "")
    rw [← hcur]
    exact hcg

lemma scrape_loop_chain (u : Upstream) (si : Nat) :
    ∀ (fuel pageNum : Nat) (cursor : Option String) (hasMore : Bool) (ce : Nat)
      (st : LoopState),
      List.Chain' cursor_rule st.pages →
      (∀ ev, st.pages.getLast? = some ev → ev.page + 1 = pageNum ∧ link_ok ev cursor) →
      List.Chain' cursor_rule (scrape_loop u si fuel pageNum cursor hasMore ce st).pages := by
  intro fuel
  induction fuel with
  | zero => intro pageNum cursor hasMore ce st hchain hlast; exact hchain
  | succ fuel ih =>
    intro pageNum cursor hasMore ce st hchain hlast
    rcases scrape_step_cases u si pageNum cursor hasMore ce st with
      ⟨hs, -⟩ | ⟨hs, -⟩ | ⟨rd, hf, hg, ⟨hnil, hs | hs⟩ | ⟨hne, hs | hs⟩⟩
    · rw [scrape_loop_succ_inl hs]
      exact hchain
    · rw [scrape_loop_succ_inl hs]
      exact hchain
    · rw [scrape_loop_succ_inl hs]
      have hcg : cursor = some (cursor.getD "") := by
        refine cursorOk_getD ?_
        have hg2 := hg
        simp only [Bool.and_eq_true] at hg2
        exact hg2.1
      show List.Chain' cursor_rule
        (absorb_page pageNum (cursor.getD "") (extract_attendees rd st.unique_ids) st).pages
      rw [absorb_page_pages]
      exact chain_snoc st pageNum cursor _ hchain hlast hcg
    · rw [scrape_loop_succ_inr hs]
      have hcg : cursor = some (cursor.getD "") := by
        refine cursorOk_getD ?_
        have hg2 := hg
        simp only [Bool.and_eq_true] at hg2
        exact hg2.1
      refine ih (pageNum + 1) cursor _ (ce + 1) _ ?_ ?_
      · rw [absorb_page_pages]
        exact chain_snoc st pageNum cursor _ hchain hlast hcg
      · intro ev hev
        rw [absorb_page_pages, List.getLast?_concat] at hev
        obtain hev := Option.some.inj hev
        subst hev
        refine ⟨rfl, fun h0 => hcg, fun hn => ?_⟩
        exact absurd (by simp [page_event, hnil]) hn
    · rw [scrape_loop_succ_inl hs]
      have hcg : cursor = some (cursor.getD "") := by
        refine cursorOk_getD ?_
        have hg2 := hg
        simp only [Bool.and_eq_true] at hg2
        exact hg2.1
      show List.Chain' cursor_rule
        (extend_state si pageNum (extract_attendees rd st.unique_ids)
          (absorb_page pageNum (cursor.getD "") (extract_attendees rd st.unique_ids) st)).pages
      rw [extend_state_pages, absorb_page_pages]
      exact chain_snoc st pageNum cursor _ hchain hlast hcg
    · rw [scrape_loop_succ_inr hs]
      have hcg : cursor = some (cursor.getD "") := by
        refine cursorOk_getD ?_
        have hg2 := hg
        simp only [Bool.and_eq_true] at hg2
        exact hg2.1
      refine ih (pageNum + 1) (extract_attendees rd st.unique_ids).next_cursor _ 0 _ ?_ ?_
      · rw [extend_state_pages, absorb_page_pages]
        exact chain_snoc st pageNum cursor _ hchain hlast hcg
      · intro ev hev
        rw [extend_state_pages, absorb_page_pages, List.getLast?_concat] at hev
        obtain hev := Option.some.inj hev
        subst hev
        refine ⟨rfl, fun h0 => ?_, fun hn => rfl⟩
        exact absurd (List.eq_nil_of_length_eq_zero h0) hne

/-- Upstream fixture for the C7 counterexample: a duplicate-only page whose
    response advances the cursor to "c2" (behind which record B waits), but
    the source keeps sending "c1" because the page had zero new records. -/
def u_c7 : Upstream :=
  { first := some (page_of none [person_of "A"] true (some "c1"))
    next := fun _ c =>
      if c = "c2" then some (page_of none [person_of "B"] false none)
      else some (page_of none [person_of "A"] true (some "c2")) }

/-- Counterexample to C7 as stated: page 2's response returns `endCursor`
    "c2", yet the requests for pages 3 and 4 are sent with the OLD cursor
    "c1" (the loop reassigns the cursor only on pages with new records), so
    record B behind "c2" is never reached and the run stalls out after three
    empty pages. -/
theorem cursor_not_advanced_cex :
    (scrape_all_attendees u_c7 10).pages.map (fun ev => (ev.page, ev.sentCursor, ev.respCursor)) =
      [(2, "c1", some "c2"), (3, "c1", some "c2"), (4, "c1", some "c2")] ∧
    (scrape_all_attendees u_c7 10).all_attendees.map (fun a => a.id) = ["A"] := by decide

/-- C7 amended: along the processed pages of any run, consecutive requests
    are related by `cursor_rule`: after a page with at least one new record
    the next request carries that page's response cursor, but after a page
    with zero new records the next request reuses the SAME cursor. -/
theorem cursor_advance_rule (u : Upstream) (si : Nat) :
    List.Chain' cursor_rule (scrape_all_attendees u si).pages := by
  unfold scrape_all_attendees
  cases u.first with
  | none => exact List.chain'_nil
  | some rd =>
    refine scrape_loop_chain u si _ 2 _ _ 0 _ List.chain'_nil ?_
    intro ev hev
    simp at hev

/-! ## C8: target-reached behaviour -/

/-- Upstream fixture for C8: the first page reports totalCount 5 and two
    records; pages 2 and 3 deliver two new records each. -/
def u_c8 : Upstream :=
  { first := some (page_of (some 5) [person_of "1", person_of "2"] true (some "k1"))
    next := fun k _ =>
      if k = 2 then some (page_of none [person_of "3", person_of "4"] true (some "k2"))
      else if k = 3 then some (page_of none [person_of "5", person_of "6"] true (some "k3"))
      else none }

/-- Counterexample to C8 as stated: with expected total 5 and pages of
    2/2/2 unique records, the final result holds 6 records, not "exactly the
    first 5 unique records encountered" — the target check runs only after the
    whole page has been appended. -/
theorem target_overshoot_cex :
    (scrape_all_attendees u_c8 10).total_count = some 5 ∧
    (scrape_all_attendees u_c8 10).all_attendees.length = 6 := by decide

/-- C8 amended: the loop stops at the page on which the seen count first
    reaches the expected total (page 3 — only two pagination requests are
    issued, none for page 4), but the returned result contains ALL unique
    records encountered through that page: all six, overshooting the total of
    five rather than truncating to it. -/
theorem target_reached_overshoot :
    (scrape_all_attendees u_c8 10).all_attendees.map (fun a => a.id) =
      ["1", "2", "3", "4", "5", "6"] ∧
    (scrape_all_attendees u_c8 10).iters = 2 ∧
    (scrape_all_attendees u_c8 10).unique_ids.card = 6 ∧
    (scrape_all_attendees u_c8 10).total_count = some 5 := by decide

/-! ## C9: persons without an id -/

lemma length_filter_le_one_of_nodup_map (l : List Attendee) (x : String)
    (h : (l.map (fun a => a.id)).Nodup) :
    (l.filter (fun a => a.id == x)).length ≤ 1 := by
  induction l with
  | nil => simp
  | cons a t ih =>
    simp only [List.map_cons, List.nodup_cons] at h
    obtain ⟨hna, hnd⟩ := h
    by_cases hax : (a.id == x) = true
    · have ht : t.filter (fun b => b.id == x) = [] := by
        rw [List.filter_eq_nil_iff]
        intro b hb hbx
        apply hna
        have hbx' : b.id = x := by simpa using hbx
        have hax' : a.id = x := by simpa using hax
        rw [hax', ← hbx']
        exact List.mem_map.mpr ⟨b, hb, rfl⟩
      simp [List.filter_cons, hax, ht]
    · simp only [List.filter_cons, hax, if_false]
      exact ih hnd

/-- C9: a person object without an `id` key gets the empty-string id: when ""
    is already in the seen set the person is silently dropped as a duplicate,
    otherwise it is inserted with id "" — so at most one record with empty id
    ever enters any run's result list. -/
theorem missing_id_empty_string :
    (∀ (p : Person) (rest : List Person) (seen : Finset String) (acc : List Attendee),
        p.id = none → "" ∈ seen →
        process_nodes (p :: rest) seen acc = process_nodes rest seen acc) ∧
    (∀ (p : Person) (rest : List Person) (seen : Finset String) (acc : List Attendee),
        p.id = none → "" ∉ seen →
        process_nodes (p :: rest) seen acc =
          process_nodes rest (insert "" seen) (acc ++ [mk_attendee "" p])) ∧
    (∀ (u : Upstream) (si : Nat),
        ((scrape_all_attendees u si).all_attendees.filter (fun a => a.id == "")).length ≤ 1) := by
  refine ⟨?_, ?_, ?_⟩
  · intro p rest seen acc hid hmem
    simp only [process_nodes, hid, Option.getD_none]
    rw [if_pos hmem]
  · intro p rest seen acc hid hmem
    simp only [process_nodes, hid, Option.getD_none]
    rw [if_neg hmem]
  · intro u si
    obtain ⟨-, hnd, -⟩ := scrape_all_dedup u si
    exact length_filter_le_one_of_nodup_map _ "" hnd

/-- The id-less person used by the C9 witness. -/
def p_noid : Person := {}

/-- Witness for C9: an id-less person is dropped once "" has been seen. -/
theorem missing_id_empty_string_witness :
    process_nodes [p_noid] {""} [] = process_nodes [] {""} [] :=
  missing_id_empty_string.1 p_noid [] {""} [] rfl (by decide)

/-! ## C10: totalCount of zero is treated as absent -/

/-- C10: when the first page reports `totalCount = 0`, the falsy check
    `if total_count:` leaves `self.total_count` unset, so the run ends with no
    expected total and the target-reached guard evaluates to false on the
    final state (it can never fire during that run). -/
theorem zero_total_ignored (u : Upstream) (si : Nat) (rd : List ApiResult)
    (h1 : u.first = some rd)
    (h0 : (extract_attendees rd ∅).total_count = some 0) :
    (scrape_all_attendees u si).total_count = none ∧
    reached_total (scrape_all_attendees u si) = false := by
  have htc : (scrape_all_attendees u si).total_count = none := by
    unfold scrape_all_attendees
    rw [h1]
    show (scrape_loop u si (max_pages_safety - 1) 2
      (extract_attendees rd ∅).next_cursor (extract_attendees rd ∅).has_more 0
      { all_attendees := (extract_attendees rd ∅).attendees
        unique_ids := (extract_attendees rd ∅).seen
        total_count := store_total (extract_attendees rd ∅).total_count }).total_count = none
    rw [scrape_loop_total_count]
    show store_total (extract_attendees rd ∅).total_count = none
    rw [h0]
    rfl
  refine ⟨htc, ?_⟩
  unfold reached_total
  rw [htc]

/-- First-page fixture for the C10 witness: totalCount 0 with one record. -/
def rd_c10 : List ApiResult := page_of (some 0) [person_of "A"] true (some "z")

/-- Upstream fixture for the C10 witness. -/
def u_c10 : Upstream := { first := some rd_c10, next := fun _ _ => none }

/-- Witness for C10 at the concrete zero-total run. -/
theorem zero_total_ignored_witness :
    (scrape_all_attendees u_c10 7).total_count = none ∧
    reached_total (scrape_all_attendees u_c10 7) = false :=
  zero_total_ignored u_c10 7 rd_c10 rfl (by decide)
